import Mathlib

/-!
# Verification of the debug-loop controller (`base_steps/debugger.py`)

Shallow embedding of `DebuggerConverser` from
`data_to_paper/data_to_paper/base_steps/debugger.py`.  The mutable dataclass
fields of the converser become an explicit `DebuggerState`; the immutable
configuration fields become a `DebuggerConfig`; each method becomes a Lean
function threading the state.  Collaborator types that are not part of the
excerpt (`CodeProblem`, `RunIssue`, `RunIssueCollector`, the conversation
primitives, `ModelEngine`) are modelled from the spec, as marked in their
doc comments.
-/

namespace DataToPaper

/-- Modelled from the spec: the ordered classification enum `CodeProblem`
(run_gpt_code/types.py is not part of the excerpt).  The total order is the
severity order of spec section 3:
NoCode < NotSingleBlock < IncompleteBlock < StaticCheck < RuntimeError < OutputFileContent. -/
inductive CodeProblem where
  | NoCode
  | NotSingleBlock
  | IncompleteBlock
  | StaticCheck
  | RuntimeError
  | OutputFileContent
deriving DecidableEq, Repr

/-- Severity rank realising the spec's total order on classifications. -/
def CodeProblem.rank : CodeProblem → Nat
  | .NoCode => 0
  | .NotSingleBlock => 1
  | .IncompleteBlock => 2
  | .StaticCheck => 3
  | .RuntimeError => 4
  | .OutputFileContent => 5

/-- Conversation message roles (user request / assistant response). -/
inductive Role where
  | user
  | assistant
deriving DecidableEq, Repr

/-- A conversation message: role, text content, and the `ignore` flag of
`apply_append_user_message(..., ignore=True)`. -/
structure Message where
  role : Role
  content : String
  ignoreFlag : Bool := false
deriving DecidableEq, Repr

/-- Trace of the conversation / filesystem operations the controller performs,
used to state in which order side effects happen. -/
inductive ConvEvent where
  | appendAssistant (content : String)
  | appendUser (content : String)
  | deleteLastTwoMessages
  | rewindToFirstResponse
  | createRunner
  | removeFile (name : String)
deriving DecidableEq, Repr

/-- Modelled from the spec: the `RunIssue` record of run_gpt_code/types.py
(section 3 "Issue": message text, internal comment, optional end marker).
`requestSmallChange` is the spec's "minor kind" flag consumed by the
Issue Collector (section 4.4); it is set by the two minor-kind
constructors (dataframe-series-mutation and output-content issues). -/
structure RunIssue where
  issue : String
  comment : String := ""
  end_with : Option String := none
  requestSmallChange : Bool := false
deriving DecidableEq, Repr

/-- `OutputFileRequirement` (spec section 3): filename or pattern,
minimal count, wildcard flag, and (for `ContentOutputFileRequirement`
subclasses, `is_content = true`) a token budget. -/
structure OutputFileRequirement where
  filename : String
  minimal_count : Nat := 1
  is_wildcard : Bool := false
  is_content : Bool := false
  max_tokens : Nat := 0
deriving DecidableEq, Repr

/-- Modelled from the spec: `get_single_content_file_from_requirements`
(run_gpt_code/types.py is not part of the excerpt) returns the declared sole
content-output file, if exactly one content-bearing requirement is declared. -/
def get_single_content_file_from_requirements
    (reqs : List OutputFileRequirement) : Option String :=
  match reqs.filter (·.is_content) with
  | [r] => some r.filename
  | _ => none

/-- Modelled from the spec: `CodeAndOutput` (section 3).  `created_data_files`
is `get_created_data_files()`; `read_changed_unsaved_dataframe_filenames` is
what `dataframe_operations.get_read_filenames_from_ids(get_read_changed_but_unsaved_ids())`
reports; `requirements_to_output_files_to_contents` maps each requirement to
the created files and contents matched to it. -/
structure CodeAndOutput where
  code : String := ""
  requirements_to_output_files_to_contents :
    List (OutputFileRequirement × List (String × String)) := []
  created_data_files : List String := []
  read_changed_unsaved_dataframe_filenames : List String := []
deriving DecidableEq, Repr

/-- Output files created for a given requirement (the keys of
`code_and_output.requirements_to_output_files_to_contents[requirement]`). -/
def CodeAndOutput.outputFilesFor (co : CodeAndOutput) (r : OutputFileRequirement) :
    List (String × String) :=
  ((co.requirements_to_output_files_to_contents.find? (fun p => decide (p.1 = r))).map
    Prod.snd).getD []

/-- The closed tagged-union of runtime failure causes wrapped by
`FailedRunningCode` (spec design note section 9: reimplement the exception
hierarchy as a closed variant type).  `otherException` is any exception kind
not in the dispatch table. -/
inductive Exc where
  | importError (fromlist : Option (List String)) (message : String)
  | timeoutError (message : String)
  | unAllowedFilesCreated (un_allowed_files : List String)
  | fileNotFoundError (message : String)
  | codeUsesForbiddenFunctions (func : String)
  | unAllowedDataframeMethodCall (method_name : String)
  | codeImportForbiddenModule (module : String)
  | codeWriteForbiddenFile (file : String)
  | codeReadForbiddenFile (file : String)
  | dataFrameSeriesChange (changed_series : String)
  | runUtilsError (message : String)
  | otherException (message : String)
deriving DecidableEq, Repr

/-- The listed failure kinds of the controller's dispatch table
(`exceptions_to_funcs` in `_get_code_and_respond_to_issues`). -/
inductive ExcKind where
  | importError
  | timeoutError
  | unAllowedFilesCreated
  | fileNotFoundError
  | codeUsesForbiddenFunctions
  | unAllowedDataframeMethodCall
  | codeImportForbiddenModule
  | codeWriteForbiddenFile
  | codeReadForbiddenFile
  | dataFrameSeriesChange
  | runUtilsError
deriving DecidableEq, Repr

/-- Modelled from the spec: the concrete failure kind of a wrapped exception
(isinstance dispatch reimplemented as kind lookup on the closed union). -/
def Exc.kind? : Exc → Option ExcKind
  | .importError _ _ => some .importError
  | .timeoutError _ => some .timeoutError
  | .unAllowedFilesCreated _ => some .unAllowedFilesCreated
  | .fileNotFoundError _ => some .fileNotFoundError
  | .codeUsesForbiddenFunctions _ => some .codeUsesForbiddenFunctions
  | .unAllowedDataframeMethodCall _ => some .unAllowedDataframeMethodCall
  | .codeImportForbiddenModule _ => some .codeImportForbiddenModule
  | .codeWriteForbiddenFile _ => some .codeWriteForbiddenFile
  | .codeReadForbiddenFile _ => some .codeReadForbiddenFile
  | .dataFrameSeriesChange _ => some .dataFrameSeriesChange
  | .runUtilsError _ => some .runUtilsError
  | .otherException _ => none

/-- `FailedRunningCode`: wraps exactly one underlying cause.
`adjusted_traceback` is modelled from the spec as the result of
`error.get_traceback_message(code_runner.lines_added_in_front_of_code)`
(the traceback with positions adjusted for injected lines);
`is_warning` is `isinstance(error, Warning)`. -/
structure FailedRunningCode where
  exception : Exc
  adjusted_traceback : String := ""
  is_warning : Bool := false
deriving DecidableEq, Repr

/-- The immutable configuration fields of `DebuggerConverser` (spec design
note section 9: global policy tables become explicit configuration).
`countTokens` models `count_number_of_tokens_in_message` and
`extractToNearestNewline` models `extract_to_nearest_newline`, both external
collaborators per spec section 6. -/
structure DebuggerConfig where
  data_filenames : List String := []
  output_file_requirements : List OutputFileRequirement := []
  supported_packages : List String := []
  enforce_saving_altered_dataframes : Bool := false
  prompt_to_append_at_end_of_response : String := ""
  max_debug_iterations : Nat := 5
  max_model_engine : Nat := 0
  countTokens : String → Nat := fun _ => 0
  extractToNearestNewline : String → Nat → String := fun s _ => s

/-- The mutable per-session fields of `DebuggerConverser`, together with the
conversation (spec design note section 9: history as an explicit log), the
working directory contents, and the event trace. -/
structure DebuggerState where
  conversation : List Message := []
  conversation_len_before_first_response : Nat := 0
  previous_code : Option String := none
  previous_code_problem : CodeProblem := .NoCode
  requesting_small_change : Bool := false
  model_engine : Nat := 0
  debug_iteration : Nat := 0
  runner_invocations : Nat := 0
  working_dir_files : List String := []
  events : List ConvEvent := []
deriving DecidableEq, Repr

/-! ## Conversation primitives (external collaborator, spec section 6) -/

/-- Modelled from the spec: append an assistant-role message
(`apply_get_and_append_assistant_message` / `apply_append_surrogate_message`). -/
def appendAssistantMessage (s : DebuggerState) (content : String) : DebuggerState :=
  { s with conversation := s.conversation ++ [⟨.assistant, content, false⟩],
           events := s.events ++ [.appendAssistant content] }

/-- Modelled from the spec: append a user-role message
(`apply_append_user_message`). -/
def appendUserMessage (s : DebuggerState) (content : String) (ignoreFlag : Bool := false) :
    DebuggerState :=
  { s with conversation := s.conversation ++ [⟨.user, content, ignoreFlag⟩],
           events := s.events ++ [.appendUser content] }

/-- Modelled from the spec: `apply_delete_messages([-2, -1])` deletes exactly
the last two messages of the conversation. -/
def deleteLastTwoMessages (s : DebuggerState) : DebuggerState :=
  { s with conversation := s.conversation.dropLast.dropLast,
           events := s.events ++ [.deleteLastTwoMessages] }

/-- Modelled from the spec: `_rewind_conversation_to_first_response` rewinds
the conversation to immediately after the first model response, i.e. keeps
the first `conversation_len_before_first_response + 1` messages. -/
def rewindConversationToFirstResponse (s : DebuggerState) : DebuggerState :=
  { s with conversation := s.conversation.take (s.conversation_len_before_first_response + 1),
           events := s.events ++ [.rewindToFirstResponse] }

/-- `os.remove(file)` inside `run_in_directory(self.data_folder)`. -/
def removeFile (s : DebuggerState) (f : String) : DebuggerState :=
  { s with working_dir_files := s.working_dir_files.filter (fun g => decide (g ≠ f)),
           events := s.events ++ [.removeFile f] }

/-- The deletion loop `for file in code_and_output.get_created_data_files(): os.remove(file)`. -/
def removeCreatedFiles (s : DebuggerState) (files : List String) : DebuggerState :=
  files.foldl removeFile s

/-! ## Python repr helpers (how `.format` renders lists and tuples) -/

/-- An apostrophe, as a string. -/
def apos : String := String.singleton (Char.ofNat 39)

/-- Python `repr` of a string (single-quoted). -/
def pyStrRepr (x : String) : String := apos ++ x ++ apos

/-- Python `str` of a tuple of strings. -/
def pyTupleRepr : List String → String
  | [x] => "(" ++ pyStrRepr x ++ ",)"
  | l => "(" ++ String.intercalate ", " (l.map pyStrRepr) ++ ")"

/-- Python `str` of a list of strings. -/
def pyListRepr (l : List String) : String :=
  "[" ++ String.intercalate ", " (l.map pyStrRepr) ++ "]"

/-! ## Properties of the converser -/

/-- `output_filenames` property. -/
def output_filenames (cfg : DebuggerConfig) : List String :=
  cfg.output_file_requirements.map (·.filename)

/-- `output_filename` property: the declared sole content-output file. -/
def output_filename (cfg : DebuggerConfig) : Option String :=
  get_single_content_file_from_requirements cfg.output_file_requirements

/-- `description_of_allowed_output_files` property. -/
def description_of_allowed_output_files (cfg : DebuggerConfig) : String :=
  if cfg.output_file_requirements.length = 0 then
    "Your code should not write to any file."
  else
    "Your code should only write to these files: " ++
      String.intercalate ", "
        (cfg.output_file_requirements.map (fun r => "\"" ++ r.filename ++ "\"")) ++ "."

/-- `_get_response_count`: `(len(conversation) - conversation_len_before_first_response - 1) // 2`. -/
def _get_response_count (s : DebuggerState) : Nat :=
  (s.conversation.length - s.conversation_len_before_first_response - 1) / 2

/-! ## Issue classifiers

Each classifier is a method of the converser; its access to `self` is split
into the immutable `DebuggerConfig` and the mutable `DebuggerState`, which it
returns (possibly updated -- only `_get_issue_for_incomplete_code` actually
updates it). -/

/-- `KNOWN_MIS_IMPORTS`: the curated mis-import table. -/
def KNOWN_MIS_IMPORTS : List (String × String) :=
  [("Mediation", "statsmodels.stats.mediation")]

/-- `correct_package[:correct_package.index(".")] if "." in correct_package
else correct_package`: the characters before the first dot (the whole string
when it has no dot), i.e. the module path's top-level package. -/
def packageBase (correct_package : String) : String :=
  String.mk (correct_package.data.takeWhile (fun c => c ≠ '.'))

/-- `_get_issue_for_known_mis_imports`. -/
def _get_issue_for_known_mis_imports (cfg : DebuggerConfig) (s : DebuggerState)
    (fromlist : Option (List String)) (errorMessage : String) :
    DebuggerState × Option RunIssue :=
  match fromlist with
  | none => (s, none)
  | some [var] =>
    match KNOWN_MIS_IMPORTS.lookup var with
    | none => (s, none)
    | some correct_package =>
      if cfg.supported_packages.contains (packageBase correct_package) then
        (s, some
          { issue := "I ran the code and got the following error message:\n```\n" ++
              errorMessage ++ "\n```\nYour code should only use these packages: " ++
              pyTupleRepr cfg.supported_packages ++ ".\nNote that there is a `" ++ var ++
              "` in `" ++ correct_package ++ "`. Is this perhaps what you needed? \n",
            comment := "ImportError detected in gpt code" })
      else (s, none)
  | some _ => (s, none)

/-- `_get_issue_for_allowed_packages`. -/
def _get_issue_for_allowed_packages (cfg : DebuggerConfig) (s : DebuggerState)
    (fromlist : Option (List String)) (errorMessage : String) :
    DebuggerState × RunIssue :=
  match _get_issue_for_known_mis_imports cfg s fromlist errorMessage with
  | (s1, some i) => (s1, i)
  | (s1, none) =>
    (s1, { issue := "I ran the code and got the following error message:\n```\n" ++
             errorMessage ++ "\n```\nYour code should only use these packages: " ++
             pyTupleRepr cfg.supported_packages ++ ".\n",
           comment := "ImportError detected in gpt code" })

/-- `_get_issue_for_file_not_found`. -/
def _get_issue_for_file_not_found (cfg : DebuggerConfig) (s : DebuggerState)
    (errorMessage : String) : DebuggerState × RunIssue :=
  (s, { issue := "I ran the code and got the following error message:\n```\n" ++
          errorMessage ++ "\n```\nAs noted in the data description, we only have these files:\n" ++
          pyListRepr cfg.data_filenames ++
          "  \n\nFiles are located in the same directory as the code. \n",
        comment := "FileNotFound detected in code" })

/-- `_get_issue_for_regular_exception_or_warning`: the generic classifier,
embedding the position-adjusted traceback verbatim. -/
def _get_issue_for_regular_exception_or_warning (_cfg : DebuggerConfig) (s : DebuggerState)
    (error : FailedRunningCode) : DebuggerState × RunIssue :=
  (s, { issue := "I ran the code and got the following " ++
          (if error.is_warning then "warning" else "error") ++ " message:\n```\n" ++
          error.adjusted_traceback ++ "\n```\n",
        comment := "Runtime exception in code" })

/-- `_get_issue_for_timeout`. -/
def _get_issue_for_timeout (_cfg : DebuggerConfig) (s : DebuggerState) :
    DebuggerState × RunIssue :=
  (s, { issue := "I ran the code, but it just ran forever... " ++
          "Perhaps got stuck in too long calculations.\n",
        comment := "Code has timed out" })

/-- `_get_issue_for_incomplete_code`.  Note: this classifier MUTATES the
converser, bumping `self.model_engine` when it is below `MAX_MODEL_ENGINE`
(modelled from the spec as a linear order on engines with `get_next = +1`),
and the issue text then names `self.model_engine.get_next()` computed AFTER
the bump. -/
def _get_issue_for_incomplete_code (cfg : DebuggerConfig) (s : DebuggerState) :
    DebuggerState × RunIssue :=
  if s.model_engine < cfg.max_model_engine then
    let s1 := { s with model_engine := s.model_engine + 1 }
    (s1, { issue := "Your sent incomplete code. Let" ++ apos ++ "s bump you up to " ++
             "model-engine-" ++ toString (s1.model_engine + 1) ++ " and retry!",
           comment := "Code is incomplete" })
  else
    (s, { issue := "Your sent incomplete code. Please regenerate response.",
          comment := "Code is incomplete" })

/-- `_get_issue_for_missing_or_multiple_code` (issue text is `str(e)` of the
`FailedExtractingBlock`). -/
def _get_issue_for_missing_or_multiple_code (_cfg : DebuggerConfig) (s : DebuggerState)
    (errorMessage : String) : DebuggerState × RunIssue :=
  (s, { issue := errorMessage,
        comment := "Failed extracting code from gpt response" })

/-- `_get_issue_for_forbidden_functions`. -/
def _get_issue_for_forbidden_functions (cfg : DebuggerConfig) (s : DebuggerState)
    (func : String) : DebuggerState × RunIssue :=
  if func = "print" then
    match output_filename cfg with
    | none =>
      (s, { issue := "Please do not use the `print` function.\n" ++
              "Your code should only save any new or modified dataframes; " ++
              "should have no other output.\n",
            comment := "Code uses `print`" })
    | some fn =>
      (s, { issue := "Please do not use the `print` function. \n" ++
              "Anything you want to print must be written to the output file (\"" ++
              fn ++ "\"). \n",
            comment := "Code uses `print`" })
  else
    (s, { issue := "Your code uses the function `" ++ func ++ "`, which is not allowed.\n",
          comment := "Code uses forbidden function " ++ func })

/-- `_get_issue_for_forbidden_method`. -/
def _get_issue_for_forbidden_method (_cfg : DebuggerConfig) (s : DebuggerState)
    (method_name : String) : DebuggerState × RunIssue :=
  (s, { issue := "Your code uses the dataframe method `" ++ method_name ++
          "`, which is not allowed.\n",
        comment := "Code uses forbidden method " ++ method_name })

/-- `_get_issue_for_forbidden_import` (opts out of the default trailer with
`end_with=""`). -/
def _get_issue_for_forbidden_import (_cfg : DebuggerConfig) (s : DebuggerState)
    (module : String) : DebuggerState × RunIssue :=
  (s, { issue := "Your code import the module `" ++ module ++ "`, which is not allowed.\n" ++
          "Please rewrite the complete code again without using this module. \n",
        end_with := some "",
        comment := "Code imports forbidden module" })

/-- `_get_issues_for_static_code_check` (returns no issues in this class). -/
def _get_issues_for_static_code_check (_cfg : DebuggerConfig) (s : DebuggerState)
    (_code : String) : DebuggerState × List RunIssue :=
  (s, [])

/-- `_get_issue_for_forbidden_write`. -/
def _get_issue_for_forbidden_write (cfg : DebuggerConfig) (s : DebuggerState)
    (file : String) : DebuggerState × RunIssue :=
  (s, { issue := "Your code writes to the file \"" ++ file ++ "\" which is not allowed.\n" ++
          description_of_allowed_output_files cfg ++ "\n",
        comment := "Code writes to forbidden file" })

/-- `_get_issue_for_un_allowed_files_created`. -/
def _get_issue_for_un_allowed_files_created (cfg : DebuggerConfig) (s : DebuggerState)
    (un_allowed_files : List String) : DebuggerState × RunIssue :=
  (s, { issue := "Your code creates the following files " ++ pyListRepr un_allowed_files ++
          " which is not allowed.\n" ++ description_of_allowed_output_files cfg ++
          "\nPlease rewrite the complete code again so that it does not create un-allowed files.\n",
        comment := "Code created forbidden files" })

/-- `_get_issue_for_forbidden_read`: distinguishes reading back the declared
sole content-output file from a generally forbidden read. -/
def _get_issue_for_forbidden_read (cfg : DebuggerConfig) (s : DebuggerState)
    (file : String) : DebuggerState × RunIssue :=
  if output_filename cfg = some file then
    (s, { issue := "Your code tries reading from the output file \"" ++ file ++ "\".\n" ++
            "The code should create and write to this output file, " ++
            "but should not read from it.\n" ++
            "The only input files from which we can read the data are: \n" ++
            pyListRepr cfg.data_filenames ++ "\n",
          comment := "Code reads from output file" })
  else
    (s, { issue := "Your code reads from the file \"" ++ file ++
            "\" which is not part of the dataset.\nWe only have these files:\n" ++
            pyListRepr cfg.data_filenames ++
            "\n\nNote that these input files are located in the same directory as the code. \n",
          comment := "Code reads from forbidden file" })

/-- `_get_issue_for_dataframe_series_change` (a minor-kind issue per spec
section 4.4). -/
def _get_issue_for_dataframe_series_change (_cfg : DebuggerConfig) (s : DebuggerState)
    (changed_series : String) : DebuggerState × RunIssue :=
  (s, { issue := "Your code changes the series \"" ++ changed_series ++
          "\" of your dataframe.\nInstead of changing an existing dataframe series, " ++
          "please create a new series, and give it a new sensible name.\n",
        comment := "Code modifies dataframe series",
        requestSmallChange := true })

/-- `_get_issues_for_output_file_content`: empty-content and over-budget
checks; note the over-budget issue OVERWRITES the empty-content issue
(plain `if`, not `elif`), so at most one issue is produced
(a minor-kind issue per spec section 4.4). -/
def _get_issues_for_output_file_content (cfg : DebuggerConfig) (s : DebuggerState)
    (requirement : OutputFileRequirement) (filename : String) (content : String) :
    DebuggerState × List RunIssue :=
  let emptyIssue : Option String :=
    if content.trim.length = 0 then
      some ("The code created the output file \"" ++ filename ++
        "\", but the file is just empty! \n")
    else none
  let finalIssue : Option String :=
    if cfg.countTokens content > requirement.max_tokens then
      some ("The code created the output file \"" ++ filename ++
        "\", but the file is too long!\n\nHere, for context, is the beginning of the output:\n```output\n" ++
        cfg.extractToNearestNewline content requirement.max_tokens ++
        "\n```\n\nPlease rewrite the complete code so that only sensible length output " ++
        "is written to the file. \n")
    else emptyIssue
  match finalIssue with
  | some i => (s, [{ issue := i, comment := "Output file content", requestSmallChange := true }])
  | none => (s, [])

/-- `_get_issues_for_num_files_created`. -/
def _get_issues_for_num_files_created (cfg : DebuggerConfig) (s : DebuggerState)
    (co : CodeAndOutput) : DebuggerState × List RunIssue :=
  (s, cfg.output_file_requirements.filterMap (fun r =>
    let output_files := (co.outputFilesFor r).map Prod.fst
    if output_files.length < r.minimal_count then
      some { issue :=
               if r.is_wildcard then
                 "The code was supposed to create at least " ++ toString r.minimal_count ++
                   " files of \"" ++ r.filename ++ "\", but it only created " ++
                   toString output_files.length ++ " files of this type.\n"
               else
                 "The code didn" ++ apos ++ "t generate the desired output file (" ++
                   r.filename ++ ").\n",
             comment := "Code did not create all required files" }
    else none))

/-- `_get_issues_for_unsaved_dataframes`. -/
def _get_issues_for_unsaved_dataframes (cfg : DebuggerConfig) (s : DebuggerState)
    (co : CodeAndOutput) : DebuggerState × List RunIssue :=
  if cfg.enforce_saving_altered_dataframes &&
      !co.read_changed_unsaved_dataframe_filenames.isEmpty then
    (s, [{ issue := "Your code modifies some of the dataframes:\n" ++
             pyListRepr co.read_changed_unsaved_dataframe_filenames ++
             ".\nI would like the code to save any such modified dataframe.  \n" ++
             "Please rewrite the complete code again adding `to_csv` to save " ++
             "any modified dataframe in a new file in the same directory as the code.\n",
           comment := "Not all modified dataframes were saved" }])
  else (s, [])

/-- `_get_issues_for_created_output_files`: content checks over every created
file of each content-bearing requirement. -/
def _get_issues_for_created_output_files (cfg : DebuggerConfig) (s : DebuggerState)
    (co : CodeAndOutput) : DebuggerState × List RunIssue :=
  (s, (cfg.output_file_requirements.map (fun r =>
        if r.is_content then
          ((co.outputFilesFor r).map (fun p =>
            (_get_issues_for_output_file_content cfg s r p.1 p.2).2)).flatten
        else [])).flatten)

/-- `line_count` (utils; number of lines of a code string). -/
def line_count (code : String) : Nat := (code.splitOn "\n").length

/-- `_get_issue_for_new_code_not_being_a_modification_of_old_code`:
the 90-percent-line-count heuristic (`line_count(new) < line_count(old) * 0.9`,
written rationally as `10 * line_count(new) < 9 * line_count(old)`). -/
def _get_issue_for_new_code_not_being_a_modification_of_old_code
    (_cfg : DebuggerConfig) (s : DebuggerState) (new_code old_code : String) :
    DebuggerState × Option RunIssue :=
  if 10 * line_count new_code < 9 * line_count old_code then
    (s, some { issue := "Your code does not seem to be a modification of the previous code.\n" ++
                 "Please rewrite the complete code again, making sure that the new code is " ++
                 "a modification of the old code.\n",
               comment := "Code is not a modification of previous code." })
  else (s, none)

/-- `_get_issue_for_run_utils_error`. -/
def _get_issue_for_run_utils_error (_cfg : DebuggerConfig) (s : DebuggerState)
    (message : String) : DebuggerState × RunIssue :=
  (s, { issue := message, comment := "Code failed RunUtilsError" })

/-! ## Issue collector (external collaborator, spec section 4.4) -/

/-- Modelled from the spec: `RunIssueCollector.get_message_and_comment`:
the combined message concatenates every issue text in input order and
appends the shared closing instruction, unless some issue opts out of the
default trailer; the comment aggregates the per-issue comments. -/
def get_message_and_comment (issues : List RunIssue) (end_with : String) :
    String × String :=
  let optOut := issues.any (fun i => i.end_with = some "")
  (String.intercalate "\n\n" (issues.map (·.issue)) ++
     (if optOut then "" else "\n" ++ end_with),
   String.intercalate "; " (issues.map (·.comment)))

/-- Modelled from the spec: `RunIssueCollector.do_all_issues_request_small_change`:
true iff every issue in the batch is of a minor kind. -/
def do_all_issues_request_small_change (issues : List RunIssue) : Bool :=
  issues.all (·.requestSmallChange)

/-! ## The controller (`_respond_to_issues`, `_get_code_and_respond_to_issues`,
`run_debugging`) -/

/-- The three conversation-edit actions of `_respond_to_issues`. -/
inductive DebugAction where
  | repost
  | leave
  | regenerate
deriving DecidableEq, Repr

/-- The action-selection decision of `_respond_to_issues` (debugger.py lines
463-475): first response branches on the classification; later responses
compare the classification with `StaticCheck` in the severity order. -/
def selectAction (response_count : Nat) (code_problem : CodeProblem) : DebugAction :=
  if response_count = 0 then
    if code_problem = .IncompleteBlock then .regenerate
    else if code_problem = .NotSingleBlock then .leave
    else .repost
  else
    if CodeProblem.rank .StaticCheck < code_problem.rank then .repost
    else .regenerate

/-- The surrogate message content posted by `_post_code_as_fresh`
(`code` is `None` only in calls that never reach the repost action). -/
def freshCodeMessage (code : Option String) : String :=
  "Here is the code to perform the requested analysis:\n```python\n" ++
    (match code with | none => "None" | some c => c) ++ "\n```"

/-- `_post_code_as_fresh`: rewind to the first response, append the code as a
surrogate assistant message, and update `previous_code` /
`_previous_code_problem`. -/
def _post_code_as_fresh (s : DebuggerState) (code : Option String)
    (code_problem : CodeProblem) : DebuggerState :=
  let s1 := rewindConversationToFirstResponse s
  let s2 := appendAssistantMessage s1 (freshCodeMessage code)
  { s2 with previous_code := code, previous_code_problem := code_problem }

/-- `_respond_to_issues`: select the action, repost the code if chosen,
append the combined corrective user message, delete the last two messages
when regenerating, and recompute `_requesting_small_change`. -/
def _respond_to_issues (cfg : DebuggerConfig) (s : DebuggerState)
    (issues : List RunIssue) (code : Option String) (code_problem : CodeProblem) :
    DebuggerState :=
  let action := selectAction (_get_response_count s) code_problem
  let s1 := if action = .repost then _post_code_as_fresh s code code_problem else s
  let mc := get_message_and_comment issues cfg.prompt_to_append_at_end_of_response
  let s2 := appendUserMessage s1
    (mc.1 ++ (if action = .regenerate then "\n\nREGENERATE" else ""))
  let s3 := if action = .regenerate then deleteLastTwoMessages s2 else s2
  { s3 with requesting_small_change := do_all_issues_request_small_change issues }

/-- What `code_runner.extract_code()` reports for a response
(the extractor itself, `run_gpt_code/code_utils.py`, is an external
collaborator: `IncompleteBlockFailedExtractingBlock`, another
`FailedExtractingBlock` with its `str(e)`, or the extracted code). -/
inductive ExtractResult where
  | incomplete
  | failedOther (message : String)
  | ok (code : String)
deriving DecidableEq, Repr

/-- What `code_runner.run_code()` reports: a `FailedRunningCode`, or a
`CodeAndOutput` together with the issues the runner collected. -/
inductive RunOutcome where
  | failed (e : FailedRunningCode)
  | ok (co : CodeAndOutput) (collected_issues : List RunIssue)
deriving DecidableEq, Repr

/-- The environment of one debug iteration: the model response fetched by
`apply_get_and_append_assistant_message` and the runner's behaviour on it. -/
structure IterationEnv where
  response : String
  extract_result : ExtractResult
  run_outcome : RunOutcome
deriving DecidableEq, Repr

/-- The start of every iteration of `_get_code_and_respond_to_issues`:
fetch-and-append the model response, then construct the code runner
(`self._get_code_runner(response)`, counted in `runner_invocations`). -/
def startIteration (s : DebuggerState) (response : String) : DebuggerState :=
  let s1 := appendAssistantMessage s response
  { s1 with runner_invocations := s1.runner_invocations + 1,
            events := s1.events ++ [.createRunner] }

/-- The ordered dispatch table `exceptions_to_funcs` of
`_get_code_and_respond_to_issues` (insertion order of the python dict). -/
def exceptions_to_funcs : List ExcKind :=
  [.importError, .timeoutError, .unAllowedFilesCreated, .fileNotFoundError,
   .codeUsesForbiddenFunctions, .unAllowedDataframeMethodCall,
   .codeImportForbiddenModule, .codeWriteForbiddenFile, .codeReadForbiddenFile,
   .dataFrameSeriesChange, .runUtilsError]

/-- The classifier associated with a dispatch-table kind, applied to the
wrapped exception (the default arm is never reached on a matching kind). -/
def applyClassifier (cfg : DebuggerConfig) (s : DebuggerState) (k : ExcKind)
    (e : FailedRunningCode) : DebuggerState × RunIssue :=
  match k, e.exception with
  | .importError, .importError fl m => _get_issue_for_allowed_packages cfg s fl m
  | .timeoutError, .timeoutError _ => _get_issue_for_timeout cfg s
  | .unAllowedFilesCreated, .unAllowedFilesCreated files =>
      _get_issue_for_un_allowed_files_created cfg s files
  | .fileNotFoundError, .fileNotFoundError m => _get_issue_for_file_not_found cfg s m
  | .codeUsesForbiddenFunctions, .codeUsesForbiddenFunctions f =>
      _get_issue_for_forbidden_functions cfg s f
  | .unAllowedDataframeMethodCall, .unAllowedDataframeMethodCall m =>
      _get_issue_for_forbidden_method cfg s m
  | .codeImportForbiddenModule, .codeImportForbiddenModule m =>
      _get_issue_for_forbidden_import cfg s m
  | .codeWriteForbiddenFile, .codeWriteForbiddenFile f =>
      _get_issue_for_forbidden_write cfg s f
  | .codeReadForbiddenFile, .codeReadForbiddenFile f =>
      _get_issue_for_forbidden_read cfg s f
  | .dataFrameSeriesChange, .dataFrameSeriesChange ser =>
      _get_issue_for_dataframe_series_change cfg s ser
  | .runUtilsError, .runUtilsError m => _get_issue_for_run_utils_error cfg s m
  | _, _ => _get_issue_for_regular_exception_or_warning cfg s e

/-- The `for e_type, func in exceptions_to_funcs.items(): if isinstance(...)`
loop with its `else` arm: the first listed kind matching the wrapped
exception wins; an unmatched kind falls back to the generic classifier. -/
def classifyRunFailure (cfg : DebuggerConfig) (s : DebuggerState)
    (e : FailedRunningCode) : DebuggerState × RunIssue :=
  match exceptions_to_funcs.find? (fun k => decide (e.exception.kind? = some k)) with
  | some k => applyClassifier cfg s k e
  | none => _get_issue_for_regular_exception_or_warning cfg s e

/-- The post-run issue batch of `_get_code_and_respond_to_issues` (lines
556-560): missing files, issues collected during the run, unsaved
dataframes, bad output content -- in that order. -/
def computeOutputIssues (cfg : DebuggerConfig) (s : DebuggerState)
    (co : CodeAndOutput) (collected : List RunIssue) : List RunIssue :=
  (_get_issues_for_num_files_created cfg s co).2 ++ collected ++
    (_get_issues_for_unsaved_dataframes cfg s co).2 ++
    (_get_issues_for_created_output_files cfg s co).2

/-- `_get_code_and_respond_to_issues`: one debug iteration.  Returns the new
state and the produced `CodeAndOutput` on full success, `none` otherwise.
Note the faithful static-check step: when `_requesting_small_change` holds,
the (possibly `None`) result of the modification check is APPENDED to the
list, so the list is non-empty -- and the iteration fails -- whether or not
an actual issue was found (`if static_code_check_issues:` tests the list
with the `None` entry included; the `None` entries are dropped when the
batch is passed on, modelling the collector's issue-only contract). -/
def _get_code_and_respond_to_issues (cfg : DebuggerConfig) (env : IterationEnv)
    (s : DebuggerState) : DebuggerState × Option CodeAndOutput :=
  let s0 := startIteration s env.response
  match env.extract_result with
  | .incomplete =>
    let si := _get_issue_for_incomplete_code cfg s0
    (_respond_to_issues cfg si.1 [si.2] none .IncompleteBlock, none)
  | .failedOther msg =>
    let si := _get_issue_for_missing_or_multiple_code cfg s0 msg
    (_respond_to_issues cfg si.1 [si.2] none .NotSingleBlock, none)
  | .ok code =>
    let static_code_check_issues : List (Option RunIssue) :=
      (if s0.requesting_small_change then
        [(_get_issue_for_new_code_not_being_a_modification_of_old_code cfg s0
            code (s0.previous_code.getD "")).2]
      else []) ++
        ((_get_issues_for_static_code_check cfg s0 code).2.map some)
    if static_code_check_issues.isEmpty then
      match env.run_outcome with
      | .failed e =>
        let si := classifyRunFailure cfg s0 e
        (_respond_to_issues cfg si.1 [si.2] (some code) .RuntimeError, none)
      | .ok co collected =>
        let output_issues := computeOutputIssues cfg s0 co collected
        if output_issues.isEmpty then
          (s0, some co)
        else
          let s1 := removeCreatedFiles s0 co.created_data_files
          (_respond_to_issues cfg s1 output_issues (some code) .OutputFileContent, none)
    else
      (_respond_to_issues cfg s0 (static_code_check_issues.filterMap id)
        (some code) .StaticCheck, none)

/-- The restart announcement appended on exhausting `max_debug_iterations`. -/
def restart_message : String :=
  "It seems like we are not converging. Let" ++ apos ++ "s try again from the start.\n" ++
    "Please provide a fresh new attempt of the code."

/-- The exhaustion epilogue of `run_debugging` (lines 583-586): append the
restart announcement (with `ignore=True`), then rewind the conversation to
immediately after the first response. -/
def exhaustSession (s : DebuggerState) : DebuggerState :=
  rewindConversationToFirstResponse (appendUserMessage s restart_message true)

/-- The `for self.debug_iteration in range(1, max_debug_iterations + 1)` loop
of `run_debugging`, with the remaining iteration budget as fuel. -/
def run_debugging_from (cfg : DebuggerConfig) (env : Nat → IterationEnv) :
    Nat → Nat → DebuggerState → DebuggerState × Option CodeAndOutput
  | 0, _, s => (exhaustSession s, none)
  | fuel + 1, iter, s =>
    match _get_code_and_respond_to_issues cfg (env iter) { s with debug_iteration := iter } with
    | (s1, some co) => (s1, some co)
    | (s1, none) => run_debugging_from cfg env fuel (iter + 1) s1

/-- `run_debugging`: the public entry point, on an initialized conversation. -/
def run_debugging (cfg : DebuggerConfig) (env : Nat → IterationEnv)
    (s : DebuggerState) : DebuggerState × Option CodeAndOutput :=
  run_debugging_from cfg env cfg.max_debug_iterations 1 s

/-! ## Helper lemmas: classifiers return the state unchanged -/

theorem known_mis_imports_fst (cfg : DebuggerConfig) (s : DebuggerState)
    (fl : Option (List String)) (m : String) :
    (_get_issue_for_known_mis_imports cfg s fl m).1 = s := by
  unfold _get_issue_for_known_mis_imports
  split
  · rfl
  · split
    · rfl
    · split <;> rfl
  · rfl

theorem allowed_packages_fst (cfg : DebuggerConfig) (s : DebuggerState)
    (fl : Option (List String)) (m : String) :
    (_get_issue_for_allowed_packages cfg s fl m).1 = s := by
  have h := known_mis_imports_fst cfg s fl m
  unfold _get_issue_for_allowed_packages
  rcases hm : _get_issue_for_known_mis_imports cfg s fl m with ⟨s1, io⟩
  rw [hm] at h
  cases io <;> simpa using h

theorem forbidden_functions_fst (cfg : DebuggerConfig) (s : DebuggerState)
    (func : String) : (_get_issue_for_forbidden_functions cfg s func).1 = s := by
  unfold _get_issue_for_forbidden_functions
  split
  · split <;> rfl
  · rfl

theorem forbidden_read_fst (cfg : DebuggerConfig) (s : DebuggerState)
    (file : String) : (_get_issue_for_forbidden_read cfg s file).1 = s := by
  unfold _get_issue_for_forbidden_read
  split <;> rfl

theorem output_file_content_fst (cfg : DebuggerConfig) (s : DebuggerState)
    (r : OutputFileRequirement) (filename content : String) :
    (_get_issues_for_output_file_content cfg s r filename content).1 = s := by
  unfold _get_issues_for_output_file_content
  split <;> split <;> rfl

theorem new_code_modification_fst (cfg : DebuggerConfig) (s : DebuggerState)
    (nc oc : String) :
    (_get_issue_for_new_code_not_being_a_modification_of_old_code cfg s nc oc).1 = s := by
  unfold _get_issue_for_new_code_not_being_a_modification_of_old_code
  split <;> rfl

theorem unsaved_dataframes_fst (cfg : DebuggerConfig) (s : DebuggerState)
    (co : CodeAndOutput) : (_get_issues_for_unsaved_dataframes cfg s co).1 = s := by
  unfold _get_issues_for_unsaved_dataframes
  split <;> rfl

theorem incomplete_code_fst_eq (cfg : DebuggerConfig) (s : DebuggerState) :
    (_get_issue_for_incomplete_code cfg s).1 =
      if s.model_engine < cfg.max_model_engine
      then { s with model_engine := s.model_engine + 1 } else s := by
  unfold _get_issue_for_incomplete_code
  split <;> simp_all

theorem applyClassifier_fst (cfg : DebuggerConfig) (s : DebuggerState)
    (k : ExcKind) (e : FailedRunningCode) : (applyClassifier cfg s k e).1 = s := by
  obtain ⟨exc, tb, w⟩ := e
  cases k <;> cases exc <;>
    first
      | rfl
      | exact allowed_packages_fst ..
      | exact forbidden_functions_fst ..
      | exact forbidden_read_fst ..

theorem classifyRunFailure_fst (cfg : DebuggerConfig) (s : DebuggerState)
    (e : FailedRunningCode) : (classifyRunFailure cfg s e).1 = s := by
  unfold classifyRunFailure
  split
  · exact applyClassifier_fst ..
  · rfl

/-! ## Helper lemmas: field preservation of the conversation primitives -/

theorem respond_preserves (cfg : DebuggerConfig) (s : DebuggerState)
    (issues : List RunIssue) (code : Option String) (cp : CodeProblem) :
    (_respond_to_issues cfg s issues code cp).runner_invocations = s.runner_invocations ∧
    (_respond_to_issues cfg s issues code cp).working_dir_files = s.working_dir_files ∧
    (_respond_to_issues cfg s issues code cp).conversation_len_before_first_response =
      s.conversation_len_before_first_response ∧
    (_respond_to_issues cfg s issues code cp).model_engine = s.model_engine ∧
    (_respond_to_issues cfg s issues code cp).debug_iteration = s.debug_iteration := by
  unfold _respond_to_issues _post_code_as_fresh
  dsimp only
  split <;> split <;>
    simp [appendUserMessage, deleteLastTwoMessages, appendAssistantMessage,
      rewindConversationToFirstResponse]

theorem removeCreatedFiles_preserves (files : List String) :
    ∀ s : DebuggerState,
    (removeCreatedFiles s files).runner_invocations = s.runner_invocations ∧
    (removeCreatedFiles s files).conversation_len_before_first_response =
      s.conversation_len_before_first_response ∧
    (removeCreatedFiles s files).model_engine = s.model_engine ∧
    (removeCreatedFiles s files).conversation = s.conversation := by
  induction files with
  | nil => intro s; exact ⟨rfl, rfl, rfl, rfl⟩
  | cons f rest ih =>
    intro s
    have h := ih (removeFile s f)
    simpa [removeCreatedFiles, removeFile] using h

theorem startIteration_fields (s : DebuggerState) (r : String) :
    (startIteration s r).runner_invocations = s.runner_invocations + 1 ∧
    (startIteration s r).conversation_len_before_first_response =
      s.conversation_len_before_first_response ∧
    (startIteration s r).requesting_small_change = s.requesting_small_change ∧
    (startIteration s r).working_dir_files = s.working_dir_files ∧
    (startIteration s r).previous_code = s.previous_code ∧
    (startIteration s r).conversation = s.conversation ++ [⟨.assistant, r, false⟩] :=
  ⟨rfl, rfl, rfl, rfl, rfl, rfl⟩

/-! ## Claims -/

/-- C1: the conversation-edit action selected by `_respond_to_issues` follows
the spec's table exactly: with response count 0, `IncompleteBlock` selects
`regenerate`, `NotSingleBlock` selects `leave`, any other classification
selects `repost`; with positive response count, a classification strictly
more severe than `StaticCheck` selects `repost`, and one less than or equal
to `StaticCheck` selects `regenerate`. -/
theorem c1_action_selection_table (rc : Nat) (cp : CodeProblem) :
    (rc = 0 →
      (cp = .IncompleteBlock → selectAction rc cp = .regenerate) ∧
      (cp = .NotSingleBlock → selectAction rc cp = .leave) ∧
      (cp ≠ .IncompleteBlock → cp ≠ .NotSingleBlock → selectAction rc cp = .repost)) ∧
    (0 < rc →
      (CodeProblem.rank .StaticCheck < cp.rank → selectAction rc cp = .repost) ∧
      (cp.rank ≤ CodeProblem.rank .StaticCheck → selectAction rc cp = .regenerate)) := by
  cases rc with
  | zero => cases cp <;> simp [selectAction]
  | succ n => cases cp <;> simp [selectAction, CodeProblem.rank]

/-- Witness for C1 at concrete inputs: each row of the table once. -/
theorem c1_action_selection_table_witness :
    selectAction 0 .IncompleteBlock = .regenerate ∧
    selectAction 0 .NotSingleBlock = .leave ∧
    selectAction 0 .RuntimeError = .repost ∧
    selectAction 2 .OutputFileContent = .repost ∧
    selectAction 2 .StaticCheck = .regenerate :=
  ⟨((c1_action_selection_table 0 .IncompleteBlock).1 rfl).1 rfl,
   ((c1_action_selection_table 0 .NotSingleBlock).1 rfl).2.1 rfl,
   ((c1_action_selection_table 0 .RuntimeError).1 rfl).2.2 (by decide) (by decide),
   ((c1_action_selection_table 2 .OutputFileContent).2 (by decide)).1 (by decide),
   ((c1_action_selection_table 2 .StaticCheck).2 (by decide)).2 (by decide)⟩

/-- C5: when the `repost` action is selected, `_respond_to_issues` rewinds the
conversation to immediately after the first model response, appends the
just-validated code as a fresh assistant message, and sets `previous_code`
to that code and `_previous_code_problem` to the current issue batch's
classification (the corrective user message follows the splice). -/
theorem c5_repost_updates (cfg : DebuggerConfig) (s : DebuggerState)
    (issues : List RunIssue) (code : Option String) (cp : CodeProblem)
    (hact : selectAction (_get_response_count s) cp = .repost) :
    (_respond_to_issues cfg s issues code cp).previous_code = code ∧
    (_respond_to_issues cfg s issues code cp).previous_code_problem = cp ∧
    (_respond_to_issues cfg s issues code cp).conversation =
      s.conversation.take (s.conversation_len_before_first_response + 1) ++
        [⟨.assistant, freshCodeMessage code, false⟩] ++
        [⟨.user, (get_message_and_comment issues cfg.prompt_to_append_at_end_of_response).1,
          false⟩] := by
  unfold _respond_to_issues _post_code_as_fresh
  rw [hact]
  simp [appendUserMessage, appendAssistantMessage, rewindConversationToFirstResponse]

/-- Witness for C5: a session whose response count is 0 with a `RuntimeError`
classification selects `repost` and updates the state as claimed. -/
theorem c5_repost_updates_witness :
    (_respond_to_issues { prompt_to_append_at_end_of_response := "Fix it." }
      { conversation := [⟨.user, "q", false⟩, ⟨.assistant, "r", false⟩],
        conversation_len_before_first_response := 1 }
      [] (some "x = 1") .RuntimeError).previous_code = some "x = 1" ∧
    (_respond_to_issues { prompt_to_append_at_end_of_response := "Fix it." }
      { conversation := [⟨.user, "q", false⟩, ⟨.assistant, "r", false⟩],
        conversation_len_before_first_response := 1 }
      [] (some "x = 1") .RuntimeError).previous_code_problem = .RuntimeError ∧
    (_respond_to_issues { prompt_to_append_at_end_of_response := "Fix it." }
      { conversation := [⟨.user, "q", false⟩, ⟨.assistant, "r", false⟩],
        conversation_len_before_first_response := 1 }
      [] (some "x = 1") .RuntimeError).conversation =
      ([⟨.user, "q", false⟩, ⟨.assistant, "r", false⟩] : List Message).take (1 + 1) ++
        [⟨.assistant, freshCodeMessage (some "x = 1"), false⟩] ++
        [⟨.user, (get_message_and_comment [] "Fix it.").1, false⟩] :=
  c5_repost_updates { prompt_to_append_at_end_of_response := "Fix it." }
    { conversation := [⟨.user, "q", false⟩, ⟨.assistant, "r", false⟩],
      conversation_len_before_first_response := 1 }
    [] (some "x = 1") .RuntimeError (by decide)

/-- C6: when the `regenerate` action is selected, `_respond_to_issues` first
appends the corrective user message and then deletes exactly the last two
messages of the conversation, so the conversation afterwards is the original
conversation without its final (rejected) model response, and its length is
the length before that rejected response. -/
theorem c6_regenerate_deletes_two (cfg : DebuggerConfig) (s : DebuggerState)
    (issues : List RunIssue) (code : Option String) (cp : CodeProblem)
    (hact : selectAction (_get_response_count s) cp = .regenerate) :
    (_respond_to_issues cfg s issues code cp).conversation = s.conversation.dropLast ∧
    (_respond_to_issues cfg s issues code cp).conversation.length =
      s.conversation.length - 1 ∧
    (_respond_to_issues cfg s issues code cp).events =
      s.events ++
        [.appendUser ((get_message_and_comment issues
            cfg.prompt_to_append_at_end_of_response).1 ++ "\n\nREGENERATE"),
         .deleteLastTwoMessages] := by
  unfold _respond_to_issues _post_code_as_fresh
  rw [hact]
  simp [appendUserMessage, deleteLastTwoMessages, List.length_dropLast]

/-- Witness for C6: a first-response `IncompleteBlock` batch selects
`regenerate`; the rejected response disappears from the conversation. -/
theorem c6_regenerate_deletes_two_witness :
    (_respond_to_issues { prompt_to_append_at_end_of_response := "Fix it." }
      { conversation := [⟨.user, "q", false⟩, ⟨.assistant, "r", false⟩],
        conversation_len_before_first_response := 1 }
      [] none .IncompleteBlock).conversation =
      ([⟨.user, "q", false⟩, ⟨.assistant, "r", false⟩] : List Message).dropLast ∧
    (_respond_to_issues { prompt_to_append_at_end_of_response := "Fix it." }
      { conversation := [⟨.user, "q", false⟩, ⟨.assistant, "r", false⟩],
        conversation_len_before_first_response := 1 }
      [] none .IncompleteBlock).conversation.length =
      ([⟨.user, "q", false⟩, ⟨.assistant, "r", false⟩] : List Message).length - 1 ∧
    (_respond_to_issues { prompt_to_append_at_end_of_response := "Fix it." }
      { conversation := [⟨.user, "q", false⟩, ⟨.assistant, "r", false⟩],
        conversation_len_before_first_response := 1 }
      [] none .IncompleteBlock).events =
      ([] : List ConvEvent) ++
        [.appendUser ((get_message_and_comment [] "Fix it.").1 ++ "\n\nREGENERATE"),
         .deleteLastTwoMessages] :=
  c6_regenerate_deletes_two { prompt_to_append_at_end_of_response := "Fix it." }
    { conversation := [⟨.user, "q", false⟩, ⟨.assistant, "r", false⟩],
      conversation_len_before_first_response := 1 }
    [] none .IncompleteBlock (by decide)

/-- C10: in `_respond_to_issues`, the `leave` and `regenerate` actions leave
`previous_code` and `_previous_code_problem` untouched (only `repost` ever
modifies them, via `_post_code_as_fresh`), while `_requesting_small_change`
is recomputed from the issue batch on every invocation regardless of the
action. -/
theorem c10_frame_previous_code (cfg : DebuggerConfig) (s : DebuggerState)
    (issues : List RunIssue) (code : Option String) (cp : CodeProblem) :
    (selectAction (_get_response_count s) cp = .leave ∨
      selectAction (_get_response_count s) cp = .regenerate →
      (_respond_to_issues cfg s issues code cp).previous_code = s.previous_code ∧
      (_respond_to_issues cfg s issues code cp).previous_code_problem =
        s.previous_code_problem) ∧
    (_respond_to_issues cfg s issues code cp).requesting_small_change =
      do_all_issues_request_small_change issues := by
  constructor
  · intro h
    unfold _respond_to_issues
    rcases h with h | h <;> rw [h] <;>
      simp [appendUserMessage, deleteLastTwoMessages]
  · rfl

/-- Witness for C10: a first-response `NotSingleBlock` batch selects `leave`
and preserves the previously posted code and its problem classification. -/
theorem c10_frame_previous_code_witness :
    (DebugAction.leave = DebugAction.leave ∨ DebugAction.leave = DebugAction.regenerate) ∧
    (_respond_to_issues {}
      { conversation := [⟨.user, "q", false⟩, ⟨.assistant, "r", false⟩],
        conversation_len_before_first_response := 1,
        previous_code := some "old", previous_code_problem := .RuntimeError }
      [] none .NotSingleBlock).previous_code = some "old" ∧
    (_respond_to_issues {}
      { conversation := [⟨.user, "q", false⟩, ⟨.assistant, "r", false⟩],
        conversation_len_before_first_response := 1,
        previous_code := some "old", previous_code_problem := .RuntimeError }
      [] none .NotSingleBlock).previous_code_problem = .RuntimeError :=
  ⟨Or.inl rfl,
    ((c10_frame_previous_code {}
      { conversation := [⟨.user, "q", false⟩, ⟨.assistant, "r", false⟩],
        conversation_len_before_first_response := 1,
        previous_code := some "old", previous_code_problem := .RuntimeError }
      [] none .NotSingleBlock).1 (Or.inl (by decide))).1,
    ((c10_frame_previous_code {}
      { conversation := [⟨.user, "q", false⟩, ⟨.assistant, "r", false⟩],
        conversation_len_before_first_response := 1,
        previous_code := some "old", previous_code_problem := .RuntimeError }
      [] none .NotSingleBlock).1 (Or.inl (by decide))).2⟩

/-! ## Helper lemmas for the loop-level claims -/

theorem respond_runner (cfg : DebuggerConfig) (s : DebuggerState) (issues : List RunIssue)
    (code : Option String) (cp : CodeProblem) :
    (_respond_to_issues cfg s issues code cp).runner_invocations = s.runner_invocations :=
  (respond_preserves cfg s issues code cp).1

theorem respond_wdf (cfg : DebuggerConfig) (s : DebuggerState) (issues : List RunIssue)
    (code : Option String) (cp : CodeProblem) :
    (_respond_to_issues cfg s issues code cp).working_dir_files = s.working_dir_files :=
  (respond_preserves cfg s issues code cp).2.1

theorem respond_clbfr (cfg : DebuggerConfig) (s : DebuggerState) (issues : List RunIssue)
    (code : Option String) (cp : CodeProblem) :
    (_respond_to_issues cfg s issues code cp).conversation_len_before_first_response =
      s.conversation_len_before_first_response :=
  (respond_preserves cfg s issues code cp).2.2.1

theorem removeCreatedFiles_runner (files : List String) (s : DebuggerState) :
    (removeCreatedFiles s files).runner_invocations = s.runner_invocations :=
  (removeCreatedFiles_preserves files s).1

theorem removeCreatedFiles_clbfr (files : List String) (s : DebuggerState) :
    (removeCreatedFiles s files).conversation_len_before_first_response =
      s.conversation_len_before_first_response :=
  (removeCreatedFiles_preserves files s).2.1

theorem incomplete_code_runner (cfg : DebuggerConfig) (s : DebuggerState) :
    (_get_issue_for_incomplete_code cfg s).1.runner_invocations = s.runner_invocations := by
  rw [incomplete_code_fst_eq]; split <;> rfl

theorem incomplete_code_clbfr (cfg : DebuggerConfig) (s : DebuggerState) :
    (_get_issue_for_incomplete_code cfg s).1.conversation_len_before_first_response =
      s.conversation_len_before_first_response := by
  rw [incomplete_code_fst_eq]; split <;> rfl

/-- Every iteration, whatever its outcome, constructs the code runner exactly
once and never touches `conversation_len_before_first_response`. -/
theorem step_counters (cfg : DebuggerConfig) (env : IterationEnv) (s : DebuggerState) :
    (_get_code_and_respond_to_issues cfg env s).1.runner_invocations =
      s.runner_invocations + 1 ∧
    (_get_code_and_respond_to_issues cfg env s).1.conversation_len_before_first_response =
      s.conversation_len_before_first_response := by
  unfold _get_code_and_respond_to_issues
  cases env.extract_result with
  | incomplete =>
    constructor <;>
      simp [respond_runner, respond_clbfr, incomplete_code_runner, incomplete_code_clbfr,
        startIteration, appendAssistantMessage]
  | failedOther msg =>
    constructor <;>
      simp [respond_runner, respond_clbfr, _get_issue_for_missing_or_multiple_code,
        startIteration, appendAssistantMessage]
  | ok code =>
    dsimp only
    rcases hro : env.run_outcome with e | ⟨co, collected⟩ <;>
      simp only [hro] <;>
      constructor <;>
      (repeat' split) <;>
      simp [respond_runner, respond_clbfr, classifyRunFailure_fst,
        removeCreatedFiles_runner, removeCreatedFiles_clbfr,
        startIteration, appendAssistantMessage]

/-- If every iteration fails, the loop spends its whole fuel, adding one
runner invocation per iteration, and finishes with the exhaustion epilogue. -/
theorem run_from_exhausts (cfg : DebuggerConfig) (env : Nat → IterationEnv)
    (hfail : ∀ i s, (_get_code_and_respond_to_issues cfg (env i) s).2 = none) :
    ∀ (fuel iter : Nat) (s : DebuggerState),
      ∃ sf, run_debugging_from cfg env fuel iter s = (exhaustSession sf, none) ∧
        sf.runner_invocations = s.runner_invocations + fuel ∧
        sf.conversation_len_before_first_response =
          s.conversation_len_before_first_response := by
  intro fuel
  induction fuel with
  | zero => intro iter s; exact ⟨s, rfl, rfl, rfl⟩
  | succ n ih =>
    intro iter s
    rcases hstep : _get_code_and_respond_to_issues cfg (env iter)
      { s with debug_iteration := iter } with ⟨s1, r⟩
    have hr : r = none := by
      have h := hfail iter { s with debug_iteration := iter }
      rw [hstep] at h; exact h
    subst hr
    obtain ⟨sf, he, h1, h2⟩ := ih (iter + 1) s1
    have hc := step_counters cfg (env iter) { s with debug_iteration := iter }
    rw [hstep] at hc
    have hru : ({ s with debug_iteration := iter } : DebuggerState).runner_invocations =
      s.runner_invocations := rfl
    have hcu : ({ s with debug_iteration := iter } :
      DebuggerState).conversation_len_before_first_response =
      s.conversation_len_before_first_response := rfl
    refine ⟨sf, ?_, ?_, ?_⟩
    · simp only [run_debugging_from, hstep]
      exact he
    · rw [h1, hc.1, hru]
      omega
    · rw [h2, hc.2, hcu]

/-- C2: the exhaustion contract of `run_debugging`: with
`max_debug_iterations = N` (N at least 1) and every iteration failing, the
code runner is constructed exactly N times, a restart-announcing user
message is appended, the conversation is rewound to immediately after the
first response, and the result is `none`. -/
theorem c2_exhaustion_contract (cfg : DebuggerConfig) (env : Nat → IterationEnv)
    (s0 : DebuggerState) (_hN : 1 ≤ cfg.max_debug_iterations)
    (hfail : ∀ i s, (_get_code_and_respond_to_issues cfg (env i) s).2 = none) :
    ∃ sf, run_debugging cfg env s0 = (exhaustSession sf, none) ∧
      sf.runner_invocations = s0.runner_invocations + cfg.max_debug_iterations ∧
      (exhaustSession sf).events =
        sf.events ++ [.appendUser restart_message, .rewindToFirstResponse] ∧
      (exhaustSession sf).conversation =
        (sf.conversation ++ [Message.mk Role.user restart_message true]).take
          (s0.conversation_len_before_first_response + 1) := by
  obtain ⟨sf, he, h1, h2⟩ :=
    run_from_exhausts cfg env hfail cfg.max_debug_iterations 1 s0
  refine ⟨sf, he, h1, ?_, ?_⟩
  · simp [exhaustSession, appendUserMessage, rewindConversationToFirstResponse]
  · simp [exhaustSession, appendUserMessage, rewindConversationToFirstResponse, h2]

/-- Environment for the C2 witness: the model always sends an incomplete
code block, so every iteration fails. -/
def c2_env : Nat → IterationEnv :=
  fun _ => ⟨"resp", .incomplete, .failed ⟨.otherException "", "", false⟩⟩

/-- Configuration for the C2 witness: two debug iterations. -/
def c2_cfg : DebuggerConfig := { max_debug_iterations := 2, max_model_engine := 1 }

/-- Initial state for the C2 witness. -/
def c2_st : DebuggerState :=
  { conversation := [⟨.user, "q", false⟩, ⟨.assistant, "r", false⟩],
    conversation_len_before_first_response := 1 }

/-- Witness for C2 at a concrete always-failing session with budget 2. -/
theorem c2_exhaustion_contract_witness :
    ∃ sf, run_debugging c2_cfg c2_env c2_st = (exhaustSession sf, none) ∧
      sf.runner_invocations = c2_st.runner_invocations + c2_cfg.max_debug_iterations ∧
      (exhaustSession sf).events =
        sf.events ++ [.appendUser restart_message, .rewindToFirstResponse] ∧
      (exhaustSession sf).conversation =
        (sf.conversation ++ [Message.mk Role.user restart_message true]).take
          (c2_st.conversation_len_before_first_response + 1) :=
  c2_exhaustion_contract c2_cfg c2_env c2_st (by decide) (fun _ _ => rfl)

/-- C3: on an execution failure, the controller scans its ordered dispatch
table and uses the first classifier whose kind matches the wrapped
exception; when no listed kind matches, it falls back to the generic
classifier, whose issue embeds the position-adjusted traceback verbatim,
and the iteration still ends with a normal corrective response (the
unrecognized kind is never fatal). -/
theorem c3_dispatch_and_fallback (cfg : DebuggerConfig) (s : DebuggerState)
    (e : FailedRunningCode) :
    (∀ k, e.exception.kind? = some k →
      exceptions_to_funcs.find? (fun k2 => decide (e.exception.kind? = some k2)) = some k ∧
      classifyRunFailure cfg s e = applyClassifier cfg s k e) ∧
    (e.exception.kind? = none →
      classifyRunFailure cfg s e = _get_issue_for_regular_exception_or_warning cfg s e ∧
      ∃ a b, (classifyRunFailure cfg s e).2.issue = a ++ e.adjusted_traceback ++ b) ∧
    (∀ (env : IterationEnv) (code : String), env.extract_result = .ok code →
      env.run_outcome = .failed e → s.requesting_small_change = false →
      _get_code_and_respond_to_issues cfg env s =
        (_respond_to_issues cfg (startIteration s env.response)
          [(classifyRunFailure cfg (startIteration s env.response) e).2]
          (some code) .RuntimeError, none)) := by
  refine ⟨?_, ?_, ?_⟩
  · intro k hk
    have hfind : exceptions_to_funcs.find?
        (fun k2 => decide (e.exception.kind? = some k2)) = some k := by
      simp only [hk]
      cases k <;> decide
    exact ⟨hfind, by simp only [classifyRunFailure, hfind]⟩
  · intro h
    have hfind : exceptions_to_funcs.find?
        (fun k2 => decide (e.exception.kind? = some k2)) = none := by
      simp only [h]; decide
    have hcl : classifyRunFailure cfg s e =
        _get_issue_for_regular_exception_or_warning cfg s e := by
      simp only [classifyRunFailure, hfind]
    refine ⟨hcl, "I ran the code and got the following " ++
      (if e.is_warning then "warning" else "error") ++ " message:\n```\n", "\n```\n", ?_⟩
    rw [hcl]
    rfl
  · intro env code hx hro hsc
    have hs0 : (startIteration s env.response).requesting_small_change = false := by
      simpa [startIteration, appendAssistantMessage] using hsc
    unfold _get_code_and_respond_to_issues
    simp [hx, hro, hs0, _get_issues_for_static_code_check, classifyRunFailure_fst]

/-- Witness for C3: a `TimeoutError` dispatches to the timeout classifier;
an unlisted exception kind falls back to the generic classifier and the
iteration responds normally. -/
theorem c3_dispatch_and_fallback_witness :
    (exceptions_to_funcs.find?
        (fun k2 => decide ((Exc.timeoutError "t").kind? = some k2)) =
      some .timeoutError ∧
     classifyRunFailure {} {} ⟨.timeoutError "t", "TBK", false⟩ =
      applyClassifier {} {} .timeoutError ⟨.timeoutError "t", "TBK", false⟩) ∧
    (classifyRunFailure {} {} ⟨.otherException "boom", "TB", false⟩ =
      _get_issue_for_regular_exception_or_warning {} {} ⟨.otherException "boom", "TB", false⟩ ∧
     ∃ a b, (classifyRunFailure {} {} ⟨.otherException "boom", "TB", false⟩).2.issue =
      a ++ "TB" ++ b) ∧
    (_get_code_and_respond_to_issues {}
        ⟨"resp", .ok "x = 1", .failed ⟨.otherException "boom", "TB", false⟩⟩ {} =
      (_respond_to_issues {} (startIteration {} "resp")
        [(classifyRunFailure {} (startIteration {} "resp")
            ⟨.otherException "boom", "TB", false⟩).2]
        (some "x = 1") .RuntimeError, none)) :=
  ⟨(c3_dispatch_and_fallback {} {} ⟨.timeoutError "t", "TBK", false⟩).1 .timeoutError rfl,
   (c3_dispatch_and_fallback {} {} ⟨.otherException "boom", "TB", false⟩).2.1 rfl,
   (c3_dispatch_and_fallback {} {} ⟨.otherException "boom", "TB", false⟩).2.2
     ⟨"resp", .ok "x = 1", .failed ⟨.otherException "boom", "TB", false⟩⟩ "x = 1" rfl rfl rfl⟩

/-- C4 counterexample: the incomplete-code classifier is NOT pure -- with the
model engine below the maximum, producing its issue mutates the controller
state (it bumps `self.model_engine`), refuting the claim that every issue
classifier leaves all controller state, including the selected model
engine, unchanged. -/
theorem c4_incomplete_code_mutates :
    (_get_issue_for_incomplete_code { max_model_engine := 2 }
        { model_engine := 0 }).1 ≠ ({ model_engine := 0 } : DebuggerState) := by
  intro h
  have h2 := congrArg DebuggerState.model_engine h
  simp [_get_issue_for_incomplete_code] at h2

/-- C4 amended: every issue classifier except `_get_issue_for_incomplete_code`
returns the controller state unchanged (and, being a function of the
configuration and the failure, is deterministic); the incomplete-code
classifier changes exactly the model engine, advancing it precisely when it
is below the maximum. -/
theorem c4_classifier_purity (cfg : DebuggerConfig) (s : DebuggerState) :
    (∀ fl m, (_get_issue_for_known_mis_imports cfg s fl m).1 = s) ∧
    (∀ fl m, (_get_issue_for_allowed_packages cfg s fl m).1 = s) ∧
    (∀ m, (_get_issue_for_file_not_found cfg s m).1 = s) ∧
    (∀ e, (_get_issue_for_regular_exception_or_warning cfg s e).1 = s) ∧
    ((_get_issue_for_timeout cfg s).1 = s) ∧
    (∀ m, (_get_issue_for_missing_or_multiple_code cfg s m).1 = s) ∧
    (∀ f, (_get_issue_for_forbidden_functions cfg s f).1 = s) ∧
    (∀ m, (_get_issue_for_forbidden_method cfg s m).1 = s) ∧
    (∀ m, (_get_issue_for_forbidden_import cfg s m).1 = s) ∧
    (∀ f, (_get_issue_for_forbidden_write cfg s f).1 = s) ∧
    (∀ l, (_get_issue_for_un_allowed_files_created cfg s l).1 = s) ∧
    (∀ f, (_get_issue_for_forbidden_read cfg s f).1 = s) ∧
    (∀ c, (_get_issue_for_dataframe_series_change cfg s c).1 = s) ∧
    (∀ m, (_get_issue_for_run_utils_error cfg s m).1 = s) ∧
    (∀ r f c, (_get_issues_for_output_file_content cfg s r f c).1 = s) ∧
    (∀ co, (_get_issues_for_num_files_created cfg s co).1 = s) ∧
    (∀ co, (_get_issues_for_unsaved_dataframes cfg s co).1 = s) ∧
    (∀ co, (_get_issues_for_created_output_files cfg s co).1 = s) ∧
    (∀ nc oc,
      (_get_issue_for_new_code_not_being_a_modification_of_old_code cfg s nc oc).1 = s) ∧
    (∀ k e, (applyClassifier cfg s k e).1 = s) ∧
    (∀ e, (classifyRunFailure cfg s e).1 = s) ∧
    ((_get_issue_for_incomplete_code cfg s).1 =
      if s.model_engine < cfg.max_model_engine
      then { s with model_engine := s.model_engine + 1 } else s) :=
  ⟨fun fl m => known_mis_imports_fst cfg s fl m,
   fun fl m => allowed_packages_fst cfg s fl m,
   fun _ => rfl, fun _ => rfl, rfl, fun _ => rfl,
   fun f => forbidden_functions_fst cfg s f,
   fun _ => rfl, fun _ => rfl, fun _ => rfl, fun _ => rfl,
   fun f => forbidden_read_fst cfg s f,
   fun _ => rfl, fun _ => rfl,
   fun r f c => output_file_content_fst cfg s r f c,
   fun _ => rfl,
   fun co => unsaved_dataframes_fst cfg s co,
   fun _ => rfl,
   fun nc oc => new_code_modification_fst cfg s nc oc,
   fun k e => applyClassifier_fst cfg s k e,
   fun e => classifyRunFailure_fst cfg s e,
   incomplete_code_fst_eq cfg s⟩

/-! ## Helper lemmas: the deletion loop really deletes -/

theorem removeCreatedFiles_subset (files : List String) :
    ∀ (s : DebuggerState) (g : String),
      g ∈ (removeCreatedFiles s files).working_dir_files → g ∈ s.working_dir_files := by
  induction files with
  | nil => intro s g h; exact h
  | cons f rest ih =>
    intro s g h
    have h2 := ih (removeFile s f) g h
    simp only [removeFile, List.mem_filter, decide_eq_true_eq] at h2
    exact h2.1

theorem removeCreatedFiles_removes (files : List String) :
    ∀ (s : DebuggerState) (f : String), f ∈ files →
      f ∉ (removeCreatedFiles s files).working_dir_files := by
  induction files with
  | nil => intro s f h; cases h
  | cons g rest ih =>
    intro s f h hmem
    rcases List.mem_cons.mp h with rfl | hr
    · have h2 := removeCreatedFiles_subset rest (removeFile s f) f hmem
      simp only [removeFile, List.mem_filter, decide_eq_true_eq] at h2
      exact h2.2 rfl
    · exact ih (removeFile s g) f hr hmem

/-- C7: when a run completes without an execution failure but the post-hoc
checks find at least one issue, the iteration deletes every data file the
run created from the working directory BEFORE posting the corrective
message (the respond step operates on the state after the removals), and
the `CodeAndOutput` is discarded (the iteration returns `none`). -/
theorem c7_output_issues_discard (cfg : DebuggerConfig) (env : IterationEnv)
    (s : DebuggerState) (code : String) (co : CodeAndOutput)
    (collected : List RunIssue)
    (hx : env.extract_result = .ok code)
    (hsc : s.requesting_small_change = false)
    (hro : env.run_outcome = .ok co collected)
    (hi : (computeOutputIssues cfg (startIteration s env.response) co
      collected).isEmpty = false) :
    _get_code_and_respond_to_issues cfg env s =
      (_respond_to_issues cfg
        (removeCreatedFiles (startIteration s env.response) co.created_data_files)
        (computeOutputIssues cfg (startIteration s env.response) co collected)
        (some code) .OutputFileContent, none) ∧
    ∀ f ∈ co.created_data_files,
      f ∉ (_get_code_and_respond_to_issues cfg env s).1.working_dir_files := by
  have hs0 : (startIteration s env.response).requesting_small_change = false := hsc
  have heq : _get_code_and_respond_to_issues cfg env s =
      (_respond_to_issues cfg
        (removeCreatedFiles (startIteration s env.response) co.created_data_files)
        (computeOutputIssues cfg (startIteration s env.response) co collected)
        (some code) .OutputFileContent, none) := by
    unfold _get_code_and_respond_to_issues
    simp [hx, hro, hs0, hi, _get_issues_for_static_code_check]
  have h3 : (_get_code_and_respond_to_issues cfg env s).1 =
      _respond_to_issues cfg
        (removeCreatedFiles (startIteration s env.response) co.created_data_files)
        (computeOutputIssues cfg (startIteration s env.response) co collected)
        (some code) .OutputFileContent := by rw [heq]
  refine ⟨heq, ?_⟩
  intro f hf
  rw [h3, respond_wdf]
  exact removeCreatedFiles_removes co.created_data_files
    (startIteration s env.response) f hf

/-- Configuration for the C7 witness: one declared output file. -/
def c7_cfg : DebuggerConfig :=
  { output_file_requirements := [{ filename := "out.csv" }] }

/-- Run result for the C7 witness: no matched output file, but one stray
data file left in the working directory. -/
def c7_co : CodeAndOutput := { created_data_files := ["tmp.txt"] }

/-- Iteration environment for the C7 witness. -/
def c7_env : IterationEnv := ⟨"resp", .ok "x = 1", .ok c7_co []⟩

/-- Initial state for the C7 witness: the created file is on disk. -/
def c7_st : DebuggerState :=
  { conversation := [⟨.user, "q", false⟩, ⟨.assistant, "r", false⟩],
    conversation_len_before_first_response := 1,
    working_dir_files := ["tmp.txt", "data.csv"] }

/-- Witness for C7: the missing `out.csv` produces an issue batch, the run's
`tmp.txt` is removed before the corrective message, and `none` is returned. -/
theorem c7_output_issues_discard_witness :
    _get_code_and_respond_to_issues c7_cfg c7_env c7_st =
      (_respond_to_issues c7_cfg
        (removeCreatedFiles (startIteration c7_st c7_env.response) c7_co.created_data_files)
        (computeOutputIssues c7_cfg (startIteration c7_st c7_env.response) c7_co [])
        (some "x = 1") .OutputFileContent, none) ∧
    ∀ f ∈ c7_co.created_data_files,
      f ∉ (_get_code_and_respond_to_issues c7_cfg c7_env c7_st).1.working_dir_files :=
  c7_output_issues_discard c7_cfg c7_env c7_st "x = 1" c7_co [] rfl rfl rfl rfl

/-- C8: every `ImportError` issue lists the permitted packages; and when the
unresolved symbol is a key of the curated mis-import table whose correct
module's top-level package is itself allowed, the issue additionally names
that correct module. -/
theorem c8_import_error_issue (cfg : DebuggerConfig) (s : DebuggerState)
    (fl : Option (List String)) (m : String) :
    (∃ a b, (_get_issue_for_allowed_packages cfg s fl m).2.issue =
      a ++ pyTupleRepr cfg.supported_packages ++ b) ∧
    (∀ var correct_package, fl = some [var] →
      KNOWN_MIS_IMPORTS.lookup var = some correct_package →
      cfg.supported_packages.contains (packageBase correct_package) = true →
      ∃ a b, (_get_issue_for_allowed_packages cfg s fl m).2.issue =
        a ++ correct_package ++ b) := by
  constructor
  · rcases fl with _ | (_ | ⟨v, _ | ⟨w, t⟩⟩)
    · exact ⟨"I ran the code and got the following error message:\n```\n" ++ m ++
        "\n```\nYour code should only use these packages: ", ".\n", rfl⟩
    · exact ⟨"I ran the code and got the following error message:\n```\n" ++ m ++
        "\n```\nYour code should only use these packages: ", ".\n", rfl⟩
    · rcases hlk : KNOWN_MIS_IMPORTS.lookup v with _ | cp
      · refine ⟨"I ran the code and got the following error message:\n```\n" ++ m ++
          "\n```\nYour code should only use these packages: ", ".\n", ?_⟩
        simp [_get_issue_for_allowed_packages, _get_issue_for_known_mis_imports, hlk]
      · by_cases hc : packageBase cp ∈ cfg.supported_packages
        · refine ⟨"I ran the code and got the following error message:\n```\n" ++ m ++
            "\n```\nYour code should only use these packages: ",
            ".\nNote that there is a `" ++ v ++ "` in `" ++ cp ++
              "`. Is this perhaps what you needed? \n", ?_⟩
          simp [_get_issue_for_allowed_packages, _get_issue_for_known_mis_imports,
            hlk, hc, String.append_assoc]
        · refine ⟨"I ran the code and got the following error message:\n```\n" ++ m ++
            "\n```\nYour code should only use these packages: ", ".\n", ?_⟩
          simp [_get_issue_for_allowed_packages, _get_issue_for_known_mis_imports,
            hlk, hc]
    · exact ⟨"I ran the code and got the following error message:\n```\n" ++ m ++
        "\n```\nYour code should only use these packages: ", ".\n", rfl⟩
  · intro var cp hfl hlk hc
    subst hfl
    have hm2 : packageBase cp ∈ cfg.supported_packages := by simpa using hc
    refine ⟨"I ran the code and got the following error message:\n```\n" ++ m ++
      "\n```\nYour code should only use these packages: " ++
      pyTupleRepr cfg.supported_packages ++ ".\nNote that there is a `" ++ var ++
      "` in `", "`. Is this perhaps what you needed? \n", ?_⟩
    simp [_get_issue_for_allowed_packages, _get_issue_for_known_mis_imports, hlk, hm2]

/-- Configuration for the C8 witness: statsmodels is an allowed package. -/
def c8_cfg : DebuggerConfig := { supported_packages := ["statsmodels", "numpy"] }

/-- Witness for C8 at the curated `Mediation` mis-import with an allow-listed
base package: the issue lists the permitted packages and names the correct
module. -/
theorem c8_import_error_issue_witness :
    (∃ a b, (_get_issue_for_allowed_packages c8_cfg {} (some ["Mediation"]) "err").2.issue =
      a ++ pyTupleRepr c8_cfg.supported_packages ++ b) ∧
    (∃ a b, (_get_issue_for_allowed_packages c8_cfg {} (some ["Mediation"]) "err").2.issue =
      a ++ "statsmodels.stats.mediation" ++ b) :=
  ⟨(c8_import_error_issue c8_cfg {} (some ["Mediation"]) "err").1,
   (c8_import_error_issue c8_cfg {} (some ["Mediation"]) "err").2
     "Mediation" "statsmodels.stats.mediation" rfl rfl rfl⟩

/-- C9: the forbidden-read classifier explains that output files must not be
read back exactly when the offending filename equals the declared sole
content-output file (the two branches are distinguished by their comments);
for any other filename the issue instead lists the declared input files. -/
theorem c9_forbidden_read_issue (cfg : DebuggerConfig) (s : DebuggerState)
    (file : String) :
    ((_get_issue_for_forbidden_read cfg s file).2.comment =
        "Code reads from output file" ↔ output_filename cfg = some file) ∧
    (output_filename cfg = some file →
      ∃ a b, (_get_issue_for_forbidden_read cfg s file).2.issue =
        a ++ "but should not read from it.\n" ++ b) ∧
    (¬ output_filename cfg = some file →
      (_get_issue_for_forbidden_read cfg s file).2.comment =
        "Code reads from forbidden file" ∧
      ∃ a b, (_get_issue_for_forbidden_read cfg s file).2.issue =
        a ++ pyListRepr cfg.data_filenames ++ b) := by
  by_cases h : output_filename cfg = some file
  · refine ⟨?_, ?_, fun hc => absurd h hc⟩
    · simp [_get_issue_for_forbidden_read, h]
    · intro _
      refine ⟨"Your code tries reading from the output file \"" ++ file ++ "\".\n" ++
        "The code should create and write to this output file, ",
        "The only input files from which we can read the data are: \n" ++
          pyListRepr cfg.data_filenames ++ "\n", ?_⟩
      unfold _get_issue_for_forbidden_read
      rw [if_pos h]
      simp only [String.append_assoc]
  · refine ⟨?_, fun he => absurd he h, fun _ => ⟨?_, ?_⟩⟩
    · constructor
      · intro hcm
        exfalso
        unfold _get_issue_for_forbidden_read at hcm
        rw [if_neg h] at hcm
        simp at hcm
      · intro he; exact absurd he h
    · simp [_get_issue_for_forbidden_read, h]
    · refine ⟨"Your code reads from the file \"" ++ file ++
        "\" which is not part of the dataset.\nWe only have these files:\n",
        "\n\nNote that these input files are located in the same directory as the code. \n",
        ?_⟩
      unfold _get_issue_for_forbidden_read
      rw [if_neg h]

/-- Configuration for the C9 witness: one content-output file and one input. -/
def c9_cfg : DebuggerConfig :=
  { output_file_requirements := [{ filename := "out.csv", is_content := true }],
    data_filenames := ["a.csv"] }

/-- Witness for C9: reading `out.csv` triggers the read-back explanation;
reading `x.csv` instead lists the declared input files. -/
theorem c9_forbidden_read_issue_witness :
    (_get_issue_for_forbidden_read c9_cfg {} "out.csv").2.comment =
      "Code reads from output file" ∧
    (∃ a b, (_get_issue_for_forbidden_read c9_cfg {} "out.csv").2.issue =
      a ++ "but should not read from it.\n" ++ b) ∧
    ((_get_issue_for_forbidden_read c9_cfg {} "x.csv").2.comment =
      "Code reads from forbidden file" ∧
     ∃ a b, (_get_issue_for_forbidden_read c9_cfg {} "x.csv").2.issue =
      a ++ pyListRepr c9_cfg.data_filenames ++ b) :=
  ⟨(c9_forbidden_read_issue c9_cfg {} "out.csv").1.mpr rfl,
   (c9_forbidden_read_issue c9_cfg {} "out.csv").2.1 rfl,
   (c9_forbidden_read_issue c9_cfg {} "x.csv").2.2 (by decide)⟩

end DataToPaper
